import Mathlib

/-!
Verification of the BasicUrlscanPy client library.

This file shallowly embeds the library (src/base.py and src/exceptions.py)
in Lean: Python dictionaries/lists/strings become an inductive `PyValue`,
the `requests` session with its mounted retry adapter becomes an explicit
`Session` record, the network becomes an explicit function from requests to
transport outcomes, and the methods of `BaseUrlscan` become pure functions
returning an `ExecResult` that records the outcome, the log lines emitted,
the requests actually issued, and the state of the held session afterwards.
-/

namespace BasicUrlscan

/-- Model of a Python runtime value as far as the client manipulates them:
`None`, booleans, integers, strings, lists, string-keyed dicts, and opaque
objects that are not JSON-serializable (e.g. a set or a custom class). -/
inductive PyValue where
  | vNone
  | vBool (b : Bool)
  | vInt (n : Int)
  | vStr (s : String)
  | vList (xs : List PyValue)
  | vDict (kvs : List (String × PyValue))
  | vOpaque (typeName : String)
deriving Repr

mutual

/-- Python `==` on the modelled values (structural equality; opaque objects
compare by their type name, which suffices for the membership tests the
client performs against string literals). -/
def pyBeq : PyValue → PyValue → Bool
  | .vNone, .vNone => true
  | .vBool a, .vBool b => a == b
  | .vInt a, .vInt b => a == b
  | .vStr a, .vStr b => a == b
  | .vList a, .vList b => pyBeqList a b
  | .vDict a, .vDict b => pyBeqKvs a b
  | .vOpaque a, .vOpaque b => a == b
  | _, _ => false

def pyBeqList : List PyValue → List PyValue → Bool
  | [], [] => true
  | x :: xs, y :: ys => pyBeq x y && pyBeqList xs ys
  | _, _ => false

def pyBeqKvs : List (String × PyValue) → List (String × PyValue) → Bool
  | [], [] => true
  | (k, v) :: xs, (l, w) :: ys => k == l && pyBeq v w && pyBeqKvs xs ys
  | _, _ => false

end

instance : BEq PyValue := ⟨pyBeq⟩

/-- Python truthiness (`bool(x)`): `None`, `False`, `0`, `""`, `[]` and
empty dicts are falsy; opaque objects are truthy by default. -/
def truthy : PyValue → Bool
  | .vNone => false
  | .vBool b => b
  | .vInt n => n != 0
  | .vStr s => s != ""
  | .vList xs => !xs.isEmpty
  | .vDict kvs => !kvs.isEmpty
  | .vOpaque _ => true

/-- Python `type(x) == dict`. -/
def isDict : PyValue → Bool
  | .vDict _ => true
  | _ => false

/-- Python `d.get(k)`: the value bound to `k`, or `None` when absent. -/
def dictGet (p : PyValue) (k : String) : PyValue :=
  match p with
  | .vDict kvs =>
    match kvs.lookup k with
    | some v => v
    | none => .vNone
  | _ => .vNone

/-- Python `k in d` for a dict. -/
def dictHasKey (p : PyValue) (k : String) : Bool :=
  match p with
  | .vDict kvs => kvs.any (fun kv => kv.1 == k)
  | _ => false

/-- Minimal JSON string escaping, as performed by `json.dumps`. -/
def jsonEscapeChar (c : Char) : String :=
  if c = '"' then "\\\""
  else if c = '\\' then "\\\\"
  else if c = '\n' then "\\n"
  else if c = '\t' then "\\t"
  else if c = '\r' then "\\r"
  else String.singleton c

def jsonEscape (s : String) : String :=
  String.join (s.toList.map jsonEscapeChar)

mutual

/-- Model of `json.dumps`: serializes a value to JSON text, or fails with a
`TypeError` message exactly when the value contains a non-serializable
(opaque) object. -/
def jsonDumps : PyValue → Except String String
  | .vNone => .ok "null"
  | .vBool true => .ok "true"
  | .vBool false => .ok "false"
  | .vInt n => .ok (toString n)
  | .vStr s => .ok ("\"" ++ jsonEscape s ++ "\"")
  | .vList xs =>
    match jsonDumpsList xs with
    | .ok parts => .ok ("[" ++ String.intercalate ", " parts ++ "]")
    | .error e => .error e
  | .vDict kvs =>
    match jsonDumpsKvs kvs with
    | .ok parts => .ok ("\x7b" ++ String.intercalate ", " parts ++ "\x7d")
    | .error e => .error e
  | .vOpaque t => .error ("Object of type " ++ t ++ " is not JSON serializable")

def jsonDumpsList : List PyValue → Except String (List String)
  | [] => .ok []
  | x :: xs =>
    match jsonDumps x with
    | .error e => .error e
    | .ok s =>
      match jsonDumpsList xs with
      | .error e => .error e
      | .ok rest => .ok (s :: rest)

def jsonDumpsKvs : List (String × PyValue) → Except String (List String)
  | [] => .ok []
  | (k, v) :: kvs =>
    match jsonDumps v with
    | .error e => .error e
    | .ok s =>
      match jsonDumpsKvs kvs with
      | .error e => .error e
      | .ok rest => .ok (("\"" ++ jsonEscape k ++ "\": " ++ s) :: rest)

end

/-!
## Transport layer: `urllib3.util.retry.Retry`, `HTTPAdapter`, `requests.Session`

`urlscan_session` in src/base.py only configures these external collaborators;
below we embed the configuration records faithfully and model the documented
behavior of the retry machinery (attempt loop and exponential backoff) so the
configured policy can be reasoned about.
-/

/-- The configuration fields of `urllib3.util.retry.Retry` that
`urlscan_session` sets. -/
structure Retry where
  total : Nat
  backoff_factor : Nat
  status_forcelist : List Nat
deriving DecidableEq, Repr

/-- `requests.adapters.HTTPAdapter(max_retries=strategy)`. -/
structure HTTPAdapter where
  max_retries : Retry
deriving DecidableEq, Repr

/-- The adapter `requests.Session.__init__` mounts by default:
`HTTPAdapter()` performs no retries (`max_retries=0`). -/
def defaultAdapter : HTTPAdapter := ⟨⟨0, 0, []⟩⟩

/-- A `requests.Session`: its ordered prefix-to-adapter mount table plus a
flag recording whether `close()` has been called on it. -/
structure Session where
  adapters : List (String × HTTPAdapter)
  closed : Bool
deriving DecidableEq, Repr

/-- `Session.mount(prefix, adapter)`: registers the adapter under the prefix
(replacing in place any adapter already mounted there, appending otherwise),
then moves all strictly shorter prefixes after it so that lookups prefer
longer prefixes. -/
def Session.mount (s : Session) (pre : String) (a : HTTPAdapter) : Session :=
  let updated :=
    if s.adapters.any (fun p => p.1 == pre) then
      s.adapters.map (fun p => if p.1 == pre then (pre, a) else p)
    else
      s.adapters ++ [(pre, a)]
  let keep := updated.filter (fun p => pre.length ≤ p.1.length)
  let moved := updated.filter (fun p => p.1.length < pre.length)
  ⟨keep ++ moved, s.closed⟩

/-- `requests.Session()`: a fresh session with the default `https://` and
`http://` adapters mounted. -/
def Session.new : Session :=
  ((⟨[], false⟩ : Session).mount "https://" defaultAdapter).mount "http://" defaultAdapter

/-- Python `str.lower` on one character, for the ASCII alphabet (URL schemes
and mount prefixes are ASCII). -/
def asciiLowerChar (c : Char) : Char :=
  if 'A' ≤ c ∧ c ≤ 'Z' then Char.ofNat (c.toNat + 32) else c

/-- Python `str.lower`, for the ASCII alphabet. -/
def asciiLower (s : String) : String :=
  String.mk (s.data.map asciiLowerChar)

/-- Python `s.startswith(t)`. -/
def pyStartsWith (s t : String) : Bool :=
  t.data.isPrefixOf s.data

/-- `Session.get_adapter(url)`: the first mounted adapter whose prefix is a
case-insensitive prefix of the URL (`url.lower().startswith(prefix.lower())`). -/
def Session.get_adapter (s : Session) (url : String) : Option HTTPAdapter :=
  (s.adapters.find? (fun p => pyStartsWith (asciiLower url) (asciiLower p.1))).map (fun p => p.2)

/-- `Session.close()` (also called by `Session.__exit__` when the session is
used as a context manager): releases the session resources. -/
def Session.close (s : Session) : Session :=
  ⟨s.adapters, true⟩

/-- The status list hard-coded in `urlscan_session` (src/base.py line 21). -/
def STATUSES : List Nat := [429, 500, 502, 503, 504]

/-- `urlscan_session(retries, backoff)` from src/base.py: builds the `Retry`
strategy over `STATUSES`, wraps it in an `HTTPAdapter`, and mounts that
adapter on a fresh session for all `https://` traffic. -/
def urlscan_session (retries : Nat) (backoff : Nat) : Session :=
  let strategy : Retry := ⟨retries, backoff, STATUSES⟩
  let adapter : HTTPAdapter := ⟨strategy⟩
  Session.new.mount "https://" adapter

/-- The documented attempt loop of the configured retry machinery: attempt
`i` receives status `responses i`; a status in the forcelist consumes one
retry and loops, any other status ends the exchange; when retries are
exhausted the failure surfaces. Returns the number of attempts made. -/
def retryGo (forcelist : List Nat) (responses : Nat → Nat) : Nat → Nat → Nat
  | remaining, i =>
    if responses i ∈ forcelist then
      match remaining with
      | 0 => i + 1
      | r + 1 => retryGo forcelist responses r (i + 1)
    else i + 1

/-- Total request attempts the session makes for one exchange under retry
strategy `strategy`, when attempt `i` is answered with status `responses i`. -/
def retryAttempts (strategy : Retry) (responses : Nat → Nat) : Nat :=
  retryGo strategy.status_forcelist responses strategy.total 0

/-- The documented backoff formula of the retry machinery: the sleep before
a retry grows as backoff_factor times 2 to the number of previous
consecutive errors. -/
def get_backoff_time (backoff_factor : Nat) (consecutiveErrors : Nat) : Nat :=
  if consecutiveErrors < 1 then 0
  else backoff_factor * 2 ^ (consecutiveErrors - 1)

/-!
## The `BaseUrlscan` client
-/

/-- A response from the remote service: status code and body, passed through
unmodified by the client. -/
structure Response where
  status_code : Nat
  body : String
deriving DecidableEq, Repr

/-- The keyword arguments `execute` hands to `session.request`: verb, URL,
header set, `data` (the request body argument, a Python value: `None`, the
serialized JSON string, or whatever falsy value slipped through), and
`params` (query parameters). -/
structure Request where
  method : String
  url : String
  headers : List (String × String)
  data : PyValue
  params : PyValue
deriving Repr

/-- What issuing one exchange over the transport produces: a response, or a
`requests.RequestException` (timeout, connection error, exhausted retries)
carrying its message. -/
inductive TransportOutcome where
  | success (r : Response)
  | requestException (msg : String)

/-- How `requests` turns the `data` argument into a request body: falsy data
(`None`, `""`, `\x7b\x7d`, `[]`, ...) yields no body; a truthy string is sent
verbatim; truthy structured data would be form-encoded (never reached by this
client, which only passes strings or falsy values). -/
def requestBody (d : PyValue) : Option String :=
  if truthy d then
    match d with
    | .vStr s => some s
    | _ => some "<form-encoded>"
  else none

/-- The two exception kinds `execute` can raise before any network I/O:
`ValueError` (src/base.py) and the dedicated `UrlscanInvalidPayload`
(src/exceptions.py). -/
inductive ExecuteError where
  | valueError (msg : String)
  | invalidPayload (msg : String)
deriving DecidableEq, Repr

/-- The observable effect of one client call: the returned value or raised
exception, the log lines emitted, the requests actually issued over the
network, and the state of the held session afterwards. -/
structure ExecResult where
  outcome : Except ExecuteError (Option Response)
  log : List String
  issued : List Request
  sessionAfter : Session

/-- Class attribute `URLSCAN_DOMAIN`. -/
def URLSCAN_DOMAIN : String := "urlscan.io"

/-- Class attribute `QUOTA_URL`. -/
def QUOTA_URL : String := "https://" ++ URLSCAN_DOMAIN ++ "/user/quotas/"

/-- Class attribute `API_URL`. -/
def API_URL : String := "https://" ++ URLSCAN_DOMAIN ++ "/api/v1"

/-- Class attribute `DOM_URL`. -/
def DOM_URL : String := "https://" ++ URLSCAN_DOMAIN ++ "/dom"

/-- Class attribute `SCREENSHOT_URL`. -/
def SCREENSHOT_URL : String := "https://" ++ URLSCAN_DOMAIN ++ "/screenshots"

/-- Class attribute `RESPONSE_URL`. -/
def RESPONSE_URL : String := "https://" ++ URLSCAN_DOMAIN ++ "/responses"

/-- Class attribute `VISIBILITIES` (as Python values, for the membership
test `visibility not in self.VISIBILITIES`). -/
def VISIBILITIES : List PyValue := [.vStr "public", .vStr "private", .vStr "unlisted"]

/-- The state of a constructed `BaseUrlscan`: its header set and its held
session. -/
structure BaseUrlscan where
  headers : List (String × String)
  session : Session

/-- Python truthiness of an optional-string argument (`None` and `""` are
falsy). -/
def optTruthy : Option String → Bool
  | none => false
  | some s => s != ""

/-- `BaseUrlscan.__init__(api_key, user_agent, retries, backoff)`: warns when
no (truthy) API key or user agent is given, substitutes the default user
agent, builds the header set (adding the `API-Key` header only for a truthy
key), and creates the session via `urlscan_session`. Returns the constructed
client together with the warnings logged. -/
def BaseUrlscan.init (api_key : Option String) (user_agent : Option String)
    (retries : Nat) (backoff : Nat) : BaseUrlscan × List String :=
  let keyWarns :=
    if optTruthy api_key then [] else
      ["No API key provided, this may limit some actions you can do with urslcan.io"]
  let ua := if optTruthy user_agent then user_agent.getD "" else "BasicUrlscanPy/v1"
  let uaWarns :=
    if optTruthy user_agent then [] else
      ["No user agent provided, using default user agent: " ++ "BasicUrlscanPy/v1" ++
        ". It is recommended to set a custom user agent"]
  let headers :=
    [("Content-Type", "application/json"), ("User-Agent", ua)] ++
      (if optTruthy api_key then [("API-Key", api_key.getD "")] else [])
  (⟨headers, urlscan_session retries backoff⟩, keyWarns ++ uaWarns)

/-- `BaseUrlscan.execute(method, url, payload, params)` (src/base.py lines
105-142), with the network abstracted as `net`. Mirrors the source line by
line: the truthiness-guarded payload type check, JSON serialization of a
truthy payload (raising `UrlscanInvalidPayload` when `json.dumps` raises
`TypeError`), the truthiness-guarded params type check, then the request
inside `with self.session`, whose exit closes the held session; a
`requests.RequestException` is logged and converted to `None`. -/
def BaseUrlscan.execute (c : BaseUrlscan) (net : Request → TransportOutcome)
    (method : String) (url : String) (payload : PyValue) (params : PyValue) :
    ExecResult :=
  if truthy payload && !(isDict payload) then
    ⟨.error (.valueError "Payload must be a dictionary"), [], [], c.session⟩
  else
    match (if truthy payload then (jsonDumps payload).map PyValue.vStr else .ok payload) with
    | .error e =>
      ⟨.error (.invalidPayload ("Failed to convert payload to JSON: " ++ e)), [], [], c.session⟩
    | .ok data =>
      if truthy params && !(isDict params) then
        ⟨.error (.valueError "Params must be a dictionary"), [], [], c.session⟩
      else
        let req : Request := ⟨method, url, c.headers, data, params⟩
        match net req with
        | .success r => ⟨.ok (some r), [], [req], c.session.close⟩
        | .requestException e =>
          ⟨.ok none, ["Request of " ++ url ++ " failed with the following error: " ++ e],
            [req], c.session.close⟩

/-- `BaseUrlscan.get_quotas()`. -/
def BaseUrlscan.get_quotas (c : BaseUrlscan) (net : Request → TransportOutcome) : ExecResult :=
  c.execute net "GET" QUOTA_URL .vNone .vNone

/-- `BaseUrlscan.get_result(result_uuid)`. -/
def BaseUrlscan.get_result (c : BaseUrlscan) (net : Request → TransportOutcome)
    (result_uuid : String) : ExecResult :=
  c.execute net "GET" (API_URL ++ "/result/" ++ result_uuid) .vNone .vNone

/-- `BaseUrlscan.get_screenshot(result_uuid)`. -/
def BaseUrlscan.get_screenshot (c : BaseUrlscan) (net : Request → TransportOutcome)
    (result_uuid : String) : ExecResult :=
  c.execute net "GET" (SCREENSHOT_URL ++ "/" ++ result_uuid) .vNone .vNone

/-- `BaseUrlscan.get_dom(result_uuid)`. -/
def BaseUrlscan.get_dom (c : BaseUrlscan) (net : Request → TransportOutcome)
    (result_uuid : String) : ExecResult :=
  c.execute net "GET" (DOM_URL ++ "/" ++ result_uuid) .vNone .vNone

/-- `BaseUrlscan.get_response(response_sha256)`. -/
def BaseUrlscan.get_response (c : BaseUrlscan) (net : Request → TransportOutcome)
    (response_sha256 : String) : ExecResult :=
  c.execute net "GET" (RESPONSE_URL ++ "/" ++ response_sha256) .vNone .vNone

/-- `BaseUrlscan.get_scan_countries()`. -/
def BaseUrlscan.get_scan_countries (c : BaseUrlscan) (net : Request → TransportOutcome) :
    ExecResult :=
  c.execute net "GET" (API_URL ++ "/availableCountries/") .vNone .vNone

/-- `BaseUrlscan.post_scan(payload)` (src/base.py lines 192-223): strict dict
check, mandatory `url` key, then the walrus-guarded visibility check (only a
truthy visibility value is tested for membership in `VISIBILITIES`), and
finally the POST via `execute`. -/
def BaseUrlscan.post_scan (c : BaseUrlscan) (net : Request → TransportOutcome)
    (payload : PyValue) : ExecResult :=
  if !(isDict payload) then
    ⟨.error (.valueError "Payload must be a dictionary"), [], [], c.session⟩
  else if !(dictHasKey payload "url") then
    ⟨.error (.valueError "Payload must contain a URL to scan"), [], [], c.session⟩
  else
    let visibility := dictGet payload "visibility"
    if truthy visibility && !(VISIBILITIES.contains visibility) then
      ⟨.error (.valueError "Visibility must be one of public, private, unlisted"), [], [],
        c.session⟩
    else
      c.execute net "POST" (API_URL ++ "/scan/") payload .vNone

/-- `BaseUrlscan.get_search(params)` (src/base.py lines 225-246): strict dict
check, mandatory `q` key, then the GET via `execute` with query params. -/
def BaseUrlscan.get_search (c : BaseUrlscan) (net : Request → TransportOutcome)
    (params : PyValue) : ExecResult :=
  if !(isDict params) then
    ⟨.error (.valueError "Params must be a dictionary"), [], [], c.session⟩
  else if !(dictHasKey params "q") then
    ⟨.error (.valueError "Params must contain a query to search for"), [], [], c.session⟩
  else
    c.execute net "GET" (API_URL ++ "/search/") .vNone params

/-!
## Concrete fixtures used by witnesses and counterexamples
-/

/-- A client constructed with an API key and a custom user agent. -/
def c0 : BaseUrlscan := (BaseUrlscan.init (some "secret-key") (some "TestScanner/v1") 5 1).1

/-- A network that answers every request with HTTP 200. -/
def netOk : Request → TransportOutcome := fun _ => .success ⟨200, "ok"⟩

/-- A network that answers every request with HTTP 404 (a non-2xx status). -/
def net404 : Request → TransportOutcome := fun _ => .success ⟨404, "not found"⟩

/-- A network on which every request raises a `requests.RequestException`. -/
def netFail : Request → TransportOutcome := fun _ => .requestException "ConnectionError"

/-!
## Theorems
-/

/-- C1: whenever a call to `execute` reaches the network (it issues at least
one request) and the transport raises a `requests.RequestException`, the call
returns `None` — it does not propagate the exception — and logs exactly the
diagnostic line naming the URL and the underlying error. -/
theorem execute_transport_failure (c : BaseUrlscan) (net : Request → TransportOutcome)
    (method url : String) (payload params : PyValue) (e : String)
    (hnet : ∀ req, net req = .requestException e)
    (hissued : (c.execute net method url payload params).issued ≠ []) :
    (c.execute net method url payload params).outcome = .ok none ∧
    (c.execute net method url payload params).log =
      ["Request of " ++ url ++ " failed with the following error: " ++ e] := by
  revert hissued
  unfold BaseUrlscan.execute
  split
  · intro h; simp at h
  · split
    · intro h; simp at h
    · split
      · intro h; simp at h
      · intro _
        simp [hnet]

/-- Witness for C1: on a client with failing transport, a GET of the quota
URL returns `None` and logs the diagnostic. -/
theorem execute_transport_failure_witness :
    (c0.execute netFail "GET" QUOTA_URL .vNone .vNone).outcome = .ok none ∧
    (c0.execute netFail "GET" QUOTA_URL .vNone .vNone).log =
      ["Request of " ++ QUOTA_URL ++ " failed with the following error: " ++ "ConnectionError"] :=
  execute_transport_failure c0 netFail "GET" QUOTA_URL .vNone .vNone "ConnectionError"
    (fun _ => rfl) (List.cons_ne_nil _ _)

/-- C2 counterexample: a `post_scan` payload whose `visibility` value is the
empty string — a value outside `VISIBILITIES` — nevertheless passes
validation and the call proceeds all the way to a successful request,
because the walrus-guarded check only runs for truthy visibility values. -/
theorem post_scan_visibility_truthiness_cex :
    VISIBILITIES.contains (.vStr "") = false ∧
    (c0.post_scan netOk
        (.vDict [("url", .vStr "http://example.com"), ("visibility", .vStr "")])).outcome =
      .ok (some ⟨200, "ok"⟩) ∧
    (c0.post_scan netOk
        (.vDict [("url", .vStr "http://example.com"), ("visibility", .vStr "")])).issued.length
      = 1 :=
  ⟨rfl, rfl, rfl⟩

/-- C2 (amended): for a mapping payload containing a `url` key, `post_scan`
fails with the visibility validation error (and attempts no network I/O)
whenever the `visibility` value is truthy and outside
{public, private, unlisted}; whenever the value is inside the set, or falsy
(in which case the check treats it as absent), validation passes and the
call proceeds to `execute`. -/
theorem post_scan_visibility_validation (c : BaseUrlscan) (net : Request → TransportOutcome)
    (payload : PyValue) (hd : isDict payload = true)
    (hurl : dictHasKey payload "url" = true) :
    (truthy (dictGet payload "visibility") = true →
      VISIBILITIES.contains (dictGet payload "visibility") = false →
      (c.post_scan net payload).outcome =
        .error (.valueError "Visibility must be one of public, private, unlisted") ∧
      (c.post_scan net payload).issued = []) ∧
    (VISIBILITIES.contains (dictGet payload "visibility") = true →
      c.post_scan net payload = c.execute net "POST" (API_URL ++ "/scan/") payload .vNone) ∧
    (truthy (dictGet payload "visibility") = false →
      c.post_scan net payload = c.execute net "POST" (API_URL ++ "/scan/") payload .vNone) := by
  refine ⟨?_, ?_, ?_⟩
  · intro ht hv
    simp [BaseUrlscan.post_scan, hd, hurl, ht, hv]
  · intro hv
    simp [BaseUrlscan.post_scan, hd, hurl, hv]
  · intro ht
    simp [BaseUrlscan.post_scan, hd, hurl, ht]

/-- Witness for C2: a truthy out-of-set visibility value is rejected with
the validation error and no request is issued. -/
theorem post_scan_visibility_validation_witness :
    (c0.post_scan netOk (.vDict [("url", .vStr "u"), ("visibility", .vStr "secret")])).outcome =
      .error (.valueError "Visibility must be one of public, private, unlisted") ∧
    (c0.post_scan netOk (.vDict [("url", .vStr "u"), ("visibility", .vStr "secret")])).issued
      = [] :=
  (post_scan_visibility_validation c0 netOk
    (.vDict [("url", .vStr "u"), ("visibility", .vStr "secret")]) rfl rfl).1 rfl rfl

/-- C3 counterexample: the empty list is a present, non-mapping payload, yet
`execute` raises no validation error and issues the request anyway, because
`if payload and type(payload) != dict` never fires on a falsy payload. -/
theorem execute_falsy_payload_cex :
    PyValue.vList [] ≠ PyValue.vNone ∧
    isDict (PyValue.vList []) = false ∧
    (c0.execute netOk "POST" (API_URL ++ "/scan/") (.vList []) .vNone).outcome =
      .ok (some ⟨200, "ok"⟩) ∧
    (c0.execute netOk "POST" (API_URL ++ "/scan/") (.vList []) .vNone).issued.length = 1 :=
  ⟨fun h => PyValue.noConfusion h, rfl, rfl, rfl⟩

/-- C3 (amended): `post_scan` fails with the validation error and attempts
no network I/O on every non-mapping payload; `execute` does so on every
truthy (non-empty) non-mapping payload, while falsy non-mapping payloads are
treated by `execute` as absent. -/
theorem nonmapping_payload_validation (c : BaseUrlscan) (net : Request → TransportOutcome)
    (payload : PyValue) :
    (isDict payload = false →
      (c.post_scan net payload).outcome = .error (.valueError "Payload must be a dictionary") ∧
      (c.post_scan net payload).issued = []) ∧
    (truthy payload = true → isDict payload = false →
      ∀ method url params,
        (c.execute net method url payload params).outcome =
          .error (.valueError "Payload must be a dictionary") ∧
        (c.execute net method url payload params).issued = []) := by
  constructor
  · intro hd
    simp [BaseUrlscan.post_scan, hd]
  · intro ht hd method url params
    simp [BaseUrlscan.execute, ht, hd]

/-- Witness for C3: a non-empty list payload is rejected by both `post_scan`
and `execute` with the validation error, with no request issued. -/
theorem nonmapping_payload_validation_witness :
    (c0.post_scan netOk (.vList [.vStr "x"])).outcome =
      .error (.valueError "Payload must be a dictionary") ∧
    (c0.execute netOk "POST" (API_URL ++ "/scan/") (.vList [.vStr "x"]) .vNone).issued = [] :=
  ⟨((nonmapping_payload_validation c0 netOk (.vList [.vStr "x"])).1 rfl).1,
    ((nonmapping_payload_validation c0 netOk (.vList [.vStr "x"])).2 rfl rfl
      "POST" (API_URL ++ "/scan/") .vNone).2⟩

/-- C4: on a mapping payload whose serialization fails (the model of
`json.dumps` raises), `execute` raises the dedicated `UrlscanInvalidPayload`
serialization error, issues no request, and in particular does not raise the
generic `ValueError` validation error. -/
theorem execute_serialization_error (c : BaseUrlscan) (net : Request → TransportOutcome)
    (method url : String) (payload params : PyValue) (e : String)
    (hd : isDict payload = true) (hser : jsonDumps payload = .error e) :
    (c.execute net method url payload params).outcome =
      .error (.invalidPayload ("Failed to convert payload to JSON: " ++ e)) ∧
    (c.execute net method url payload params).issued = [] ∧
    ∀ m, (c.execute net method url payload params).outcome ≠ .error (.valueError m) := by
  have ht : truthy payload = true := by
    match payload, hd with
    | .vDict [], _ => simp [jsonDumps, jsonDumpsKvs] at hser
    | .vDict (kv :: kvs), _ => rfl
  refine ⟨?_, ?_, ?_⟩ <;> simp [BaseUrlscan.execute, Except.map, ht, hd, hser]

/-- Witness for C4: a payload holding a Python set cannot be serialized and
`execute` raises `UrlscanInvalidPayload` without issuing a request. -/
theorem execute_serialization_error_witness :
    (c0.execute netOk "POST" (API_URL ++ "/scan/")
        (.vDict [("url", .vStr "u"), ("tags", .vOpaque "set")]) .vNone).outcome =
      .error (.invalidPayload
        ("Failed to convert payload to JSON: " ++
          "Object of type set is not JSON serializable")) ∧
    (c0.execute netOk "POST" (API_URL ++ "/scan/")
        (.vDict [("url", .vStr "u"), ("tags", .vOpaque "set")]) .vNone).issued = [] := by
  have h := execute_serialization_error c0 netOk "POST" (API_URL ++ "/scan/")
    (.vDict [("url", .vStr "u"), ("tags", .vOpaque "set")]) .vNone
    "Object of type set is not JSON serializable" rfl rfl
  exact ⟨h.1, h.2.1⟩

/-- C5: the held session starts out open, but a single call to `execute`
leaves it closed — `execute` wraps the request in `with self.session`, and
the context-manager exit calls `close()` on the shared session at the end of
every call, on success and on transport failure alike. This contradicts the
claim that no call to `execute` releases the held session. -/
theorem execute_closes_held_session :
    c0.session.closed = false ∧
    ((c0.execute netOk "GET" QUOTA_URL .vNone .vNone).sessionAfter).closed = true ∧
    ((c0.execute netFail "GET" QUOTA_URL .vNone .vNone).sessionAfter).closed = true :=
  ⟨rfl, rfl, rfl⟩

/-- C6: `get_result(s)` issues exactly one GET request, to
`API_URL ++ "/result/" ++ s`, carrying exactly the client's configured
header set and no body, and returns whatever response the transport produced
unchanged — its status code is never inspected. -/
theorem get_result_request_shape (c : BaseUrlscan) (net : Request → TransportOutcome)
    (s : String) (r : Response)
    (hnet : net ⟨"GET", API_URL ++ "/result/" ++ s, c.headers, .vNone, .vNone⟩ = .success r) :
    (c.get_result net s).issued =
      [⟨"GET", API_URL ++ "/result/" ++ s, c.headers, .vNone, .vNone⟩] ∧
    (∀ req ∈ (c.get_result net s).issued,
      req.headers = c.headers ∧ requestBody req.data = none) ∧
    (c.get_result net s).outcome = .ok (some r) := by
  have h : c.get_result net s =
      ⟨.ok (some r), [], [⟨"GET", API_URL ++ "/result/" ++ s, c.headers, .vNone, .vNone⟩],
        c.session.close⟩ := by
    simp [BaseUrlscan.get_result, BaseUrlscan.execute, truthy, hnet]
  rw [h]
  refine ⟨rfl, ?_, rfl⟩
  intro req hreq
  rw [List.mem_singleton] at hreq
  subst hreq
  exact ⟨rfl, rfl⟩

/-- Witness for C6: fetching result `abc-123` on a network answering 404
issues the single expected GET and hands the 404 response back unchanged. -/
theorem get_result_request_shape_witness :
    (c0.get_result net404 "abc-123").issued =
      [⟨"GET", API_URL ++ "/result/" ++ "abc-123", c0.headers, .vNone, .vNone⟩] ∧
    (∀ req ∈ (c0.get_result net404 "abc-123").issued,
      req.headers = c0.headers ∧ requestBody req.data = none) ∧
    (c0.get_result net404 "abc-123").outcome = .ok (some ⟨404, "not found"⟩) :=
  get_result_request_shape c0 net404 "abc-123" ⟨404, "not found"⟩ rfl

/-- The retry loop never makes more attempts than one plus the remaining
retry budget. -/
theorem retryGo_le (forcelist : List Nat) (responses : Nat → Nat) :
    ∀ remaining i, retryGo forcelist responses remaining i ≤ i + remaining + 1 := by
  intro remaining
  induction remaining with
  | zero =>
    intro i
    unfold retryGo
    split
    · exact Nat.le.refl
    · omega
  | succ r ih =>
    intro i
    unfold retryGo
    split
    · show retryGo forcelist responses r (i + 1) ≤ i + (r + 1) + 1
      have := ih (i + 1)
      omega
    · omega

/-- On a status that is always in the forcelist, the retry loop exhausts its
whole budget: one plus the remaining retries attempts. -/
theorem retryGo_const (forcelist : List Nat) (st : Nat) (hst : st ∈ forcelist) :
    ∀ remaining i, retryGo forcelist (fun _ => st) remaining i = i + remaining + 1 := by
  intro remaining
  induction remaining with
  | zero =>
    intro i
    unfold retryGo
    rw [if_pos hst]
  | succ r ih =>
    intro i
    unfold retryGo
    rw [if_pos hst]
    show retryGo forcelist (fun _ => st) r (i + 1) = i + (r + 1) + 1
    have := ih (i + 1)
    omega

/-- C7: the session built by `urlscan_session R b` retries exactly the
statuses 429, 500, 502, 503 and 504 (a forced status exhausts the budget at
R+1 attempts, any other status ends the exchange after a single attempt, and
no run of the loop ever exceeds R+1 attempts), sleeps `b * 2 ^ (k-1)` before
the k-th retry, and serves every HTTPS URL through the adapter carrying this
retry strategy. -/
theorem urlscan_session_retry_policy (R b : Nat) :
    (∀ st : Nat, st ∈ (⟨R, b, STATUSES⟩ : Retry).status_forcelist ↔
      (st = 429 ∨ st = 500 ∨ st = 502 ∨ st = 503 ∨ st = 504)) ∧
    (∀ responses : Nat → Nat, retryAttempts ⟨R, b, STATUSES⟩ responses ≤ R + 1) ∧
    (∀ st : Nat, st ∈ STATUSES → retryAttempts ⟨R, b, STATUSES⟩ (fun _ => st) = R + 1) ∧
    (∀ st : Nat, st ∉ STATUSES → retryAttempts ⟨R, b, STATUSES⟩ (fun _ => st) = 1) ∧
    (∀ k : Nat, get_backoff_time b (k + 1) = b * 2 ^ k) ∧
    (∀ url : String, pyStartsWith (asciiLower url) "https://" = true →
      (urlscan_session R b).get_adapter url = some ⟨⟨R, b, STATUSES⟩⟩) := by
  refine ⟨?_, ?_, ?_, ?_, ?_, ?_⟩
  · intro st
    simp [STATUSES]
  · intro responses
    have h := retryGo_le STATUSES responses R 0
    simp only [retryAttempts]
    omega
  · intro st hst
    have h := retryGo_const STATUSES st hst R 0
    simp only [retryAttempts]
    omega
  · intro st hst
    unfold retryAttempts retryGo
    rw [if_neg hst]
  · intro k
    simp [get_backoff_time]
  · intro url hurl
    have hadapters : (urlscan_session R b).adapters =
        [("https://", ⟨⟨R, b, STATUSES⟩⟩), ("http://", defaultAdapter)] := rfl
    unfold Session.get_adapter
    rw [hadapters]
    have h8 : asciiLower "https://" = "https://" := rfl
    rw [List.find?_cons_of_pos]
    · rfl
    · show pyStartsWith (asciiLower url) (asciiLower "https://") = true
      rw [h8]
      exact hurl

/-- Witness for C7: with the default configuration (5 retries, backoff 1), a
constant 503 exhausts the budget at 6 attempts, a 200 ends after one
attempt, the third retry sleeps 4 seconds, and an `urlscan.io` API URL is
served by the retry adapter. -/
theorem urlscan_session_retry_policy_witness :
    retryAttempts ⟨5, 1, STATUSES⟩ (fun _ => 503) = 6 ∧
    retryAttempts ⟨5, 1, STATUSES⟩ (fun _ => 200) = 1 ∧
    get_backoff_time 1 3 = 4 ∧
    (urlscan_session 5 1).get_adapter "https://urlscan.io/api/v1/search/" =
      some ⟨⟨5, 1, STATUSES⟩⟩ := by
  refine ⟨?_, ?_, ?_, ?_⟩
  · exact (urlscan_session_retry_policy 5 1).2.2.1 503 (by decide)
  · exact (urlscan_session_retry_policy 5 1).2.2.2.1 200 (by decide)
  · exact (urlscan_session_retry_policy 5 1).2.2.2.2.1 2
  · exact (urlscan_session_retry_policy 5 1).2.2.2.2.2 "https://urlscan.io/api/v1/search/" rfl

/-- C8: the header set built at construction always carries the content-type
marker and the identifying string, carries the `API-Key` header exactly when
a (truthy) credential was supplied, and every request any `execute` call
issues carries exactly this header set. -/
theorem headers_policy (api_key user_agent : Option String) (retries backoff : Nat) :
    (("Content-Type", "application/json") ∈
      (BaseUrlscan.init api_key user_agent retries backoff).1.headers) ∧
    ((∃ v, ("API-Key", v) ∈ (BaseUrlscan.init api_key user_agent retries backoff).1.headers) ↔
      optTruthy api_key = true) ∧
    (∀ net method url payload params req,
      req ∈ ((BaseUrlscan.init api_key user_agent retries backoff).1.execute
          net method url payload params).issued →
      req.headers = (BaseUrlscan.init api_key user_agent retries backoff).1.headers) := by
  refine ⟨?_, ?_, ?_⟩
  · simp [BaseUrlscan.init]
  · by_cases hk : optTruthy api_key = true <;> simp [BaseUrlscan.init, hk]
  · intro net method url payload params req
    unfold BaseUrlscan.execute
    split
    · intro h; simp at h
    · split
      · intro h; simp at h
      · split
        · intro h; simp at h
        · dsimp only
          split <;>
            · intro h
              rw [List.mem_singleton] at h
              subst h
              rfl

/-- Witness for C8: a client built with an API key carries the `API-Key`
header. -/
theorem headers_policy_witness :
    ∃ v, ("API-Key", v) ∈ (BaseUrlscan.init (some "secret-key") none 5 1).1.headers :=
  (headers_policy (some "secret-key") none 5 1).2.1.mpr rfl

/-- C9: `get_search` fails with a `ValueError` and issues no request
whenever its params argument is not a mapping or is a mapping without the
`q` key. -/
theorem get_search_validation (c : BaseUrlscan) (net : Request → TransportOutcome)
    (params : PyValue)
    (h : isDict params = false ∨ dictHasKey params "q" = false) :
    (∃ m, (c.get_search net params).outcome = .error (.valueError m)) ∧
    (c.get_search net params).issued = [] := by
  rcases h with h | h
  · refine ⟨⟨"Params must be a dictionary", ?_⟩, ?_⟩ <;> simp [BaseUrlscan.get_search, h]
  · by_cases hd : isDict params = true
    · refine ⟨⟨"Params must contain a query to search for", ?_⟩, ?_⟩ <;>
        simp [BaseUrlscan.get_search, hd, h]
    · refine ⟨⟨"Params must be a dictionary", ?_⟩, ?_⟩ <;> simp [BaseUrlscan.get_search, hd]

/-- Witness for C9: searching with params lacking the `q` key fails fast
with no request issued. -/
theorem get_search_validation_witness :
    (∃ m, (c0.get_search netOk (.vDict [("size", .vInt 100)])).outcome =
      .error (.valueError m)) ∧
    (c0.get_search netOk (.vDict [("size", .vInt 100)])).issued = [] :=
  get_search_validation c0 netOk (.vDict [("size", .vInt 100)]) (.inr rfl)

/-- C10: calling `execute` with the empty dict as payload treats it as
absent: no validation or serialization error can occur, the request carries
the empty dict through unserialized as its `data` argument, and `requests`
turns that falsy `data` into a request with no body. -/
theorem execute_empty_dict_payload (c : BaseUrlscan) (net : Request → TransportOutcome)
    (method url : String) (params : PyValue) (r : Response)
    (hp : truthy params = false ∨ isDict params = true)
    (hnet : net ⟨method, url, c.headers, .vDict [], params⟩ = .success r) :
    (c.execute net method url (.vDict []) params).outcome = .ok (some r) ∧
    (c.execute net method url (.vDict []) params).issued =
      [⟨method, url, c.headers, .vDict [], params⟩] ∧
    requestBody (PyValue.vDict []) = none := by
  have hc : (truthy params && !(isDict params)) = false := by
    rcases hp with h | h <;> simp [h]
  have ht : truthy (PyValue.vDict []) = false := rfl
  refine ⟨?_, ?_, rfl⟩ <;> simp [BaseUrlscan.execute, ht, hc, hnet]

/-- Witness for C10: an empty-dict payload flows through `execute` to a
successful request with no body. -/
theorem execute_empty_dict_payload_witness :
    (c0.execute netOk "POST" (API_URL ++ "/scan/") (.vDict []) .vNone).outcome =
      .ok (some ⟨200, "ok"⟩) ∧
    (c0.execute netOk "POST" (API_URL ++ "/scan/") (.vDict []) .vNone).issued =
      [⟨"POST", API_URL ++ "/scan/", c0.headers, .vDict [], .vNone⟩] ∧
    requestBody (PyValue.vDict []) = none :=
  execute_empty_dict_payload c0 netOk "POST" (API_URL ++ "/scan/") .vNone ⟨200, "ok"⟩
    (.inl rfl) rfl

end BasicUrlscan
